/-
Verification of the bound IDL AST data model (buildscripts/idl/idl/ast.py).

The module under verification is a set of plain data classes: each class's
constructor takes a source location (file name, line, column) and initializes
every attribute to a fixed default; the binder later populates attributes.
We embed each class as a Lean structure, each `__init__` as a total function
(except `IDLBoundSpec.__init__`, whose `assert` is embedded as an `Option`
result), and the binder — which is not part of the sources at hand — as
spec-modelled acceptance checks.
-/
import Mathlib

set_option linter.unusedVariables false

namespace common

/-- Modelled from the spec: `common.SourceLocation` (common.py is not among the
sources) — the (file, line, column) provenance tag every entity carries. -/
structure SourceLocation where
  file_name : String
  line : Int
  column : Int

end common

namespace errors

/-- Modelled from the spec: `errors.ParserErrorCollection` (errors.py is not
among the sources) — the accumulated binder error collection; the data model
only stores it, never inspects it. -/
structure ParserErrorCollection where
  messages : List String

end errors

namespace ast

/-- A Python `Union[int, float]` numeric literal as stored by `Validator`
(gt/lt/gte/lte). The AST module never computes with these values, so a float
payload is carried as its literal text. -/
inductive IdlNumber where
  | ofInt (i : Int)
  | ofFloat (text : String)

/-- `Condition` (ast.py:240-250): condition(s) for a ServerParameter or
ConfigOption. -/
structure Condition extends common.SourceLocation where
  expr : Option String
  constexpr : Option String
  preprocessor : Option String

/-- `Condition.__init__` (ast.py:243-250). -/
def Condition.init (file_name : String) (line column : Int) : Condition :=
  { expr := none
    constexpr := none
    preprocessor := none
    toSourceLocation := ⟨file_name, line, column⟩ }

/-- `Validator` (ast.py:113-134): an instance of a validator for a field. -/
structure Validator extends common.SourceLocation where
  gt : Option IdlNumber
  lt : Option IdlNumber
  gte : Option IdlNumber
  lte : Option IdlNumber
  callback : Option String

/-- `Validator.__init__` (ast.py:123-134): initializes all five predicates to
`None`; no check is performed. -/
def Validator.init (file_name : String) (line column : Int) : Validator :=
  { gt := none
    lt := none
    gte := none
    lte := none
    callback := none
    toSourceLocation := ⟨file_name, line, column⟩ }

/-- `EnumValue` (ast.py:205-218). -/
structure EnumValue extends common.SourceLocation where
  name : Option String
  value : Option String

/-- `EnumValue.__init__` (ast.py:212-218). -/
def EnumValue.init (file_name : String) (line column : Int) : EnumValue :=
  { name := none
    value := none
    toSourceLocation := ⟨file_name, line, column⟩ }

/-- `Enum` (ast.py:221-237). -/
structure Enum extends common.SourceLocation where
  name : Option String
  description : Option String
  cpp_namespace : Option String
  type : Option String
  values : List EnumValue

/-- `Enum.__init__` (ast.py:228-237). -/
def Enum.init (file_name : String) (line column : Int) : Enum :=
  { name := none
    description := none
    cpp_namespace := none
    type := none
    values := []
    toSourceLocation := ⟨file_name, line, column⟩ }

/-- `ConfigGlobal` (ast.py:283-293). `init_name` embeds the attribute the
source spells `i·nitializer_name` (ast.py:291). -/
structure ConfigGlobal extends common.SourceLocation where
  init_name : Option String

/-- `ConfigGlobal.__init__` (ast.py:286-293). -/
def ConfigGlobal.init (file_name : String) (line column : Int) : ConfigGlobal :=
  { init_name := none
    toSourceLocation := ⟨file_name, line, column⟩ }

/-- `Global` (ast.py:73-87). -/
structure Global extends common.SourceLocation where
  cpp_namespace : Option String
  cpp_includes : List String
  configs : Option ConfigGlobal

/-- `Global.__init__` (ast.py:80-87). -/
def Global.init (file_name : String) (line column : Int) : Global :=
  { cpp_namespace := none
    cpp_includes := []
    configs := none
    toSourceLocation := ⟨file_name, line, column⟩ }

/-- `ServerParameter` (ast.py:253-280). -/
structure ServerParameter extends common.SourceLocation where
  name : Option String
  set_at : Option String
  description : Option String
  cpp_vartype : Option String
  cpp_varname : Option String
  condition : Option Condition
  redact : Bool
  deprecated_name : List String
  -- Only valid if cpp_varname is specified (ast.py:270).
  default : Option String
  validator : Option Validator
  on_update : Option String
  -- Required if cpp_varname is NOT specified (ast.py:275).
  from_bson : Option String
  append_bson : Option String
  from_string : Option String

/-- `ServerParameter.__init__` (ast.py:258-280). -/
def ServerParameter.init (file_name : String) (line column : Int) : ServerParameter :=
  { name := none
    set_at := none
    description := none
    cpp_vartype := none
    cpp_varname := none
    condition := none
    redact := false
    deprecated_name := []
    default := none
    validator := none
    on_update := none
    from_bson := none
    append_bson := none
    from_string := none
    toSourceLocation := ⟨file_name, line, column⟩ }

/-- `ConfigOption` (ast.py:296-329). `section_name` embeds the attribute the
source spells `section` (ast.py:310), a Lean keyword. Note the source class
has no from-document / append-to-document / parse-from-string hook
attributes. -/
structure ConfigOption extends common.SourceLocation where
  name : Option String
  short_name : Option String
  deprecated_name : List String
  deprecated_short_name : List String
  description : Option String
  section_name : Option String
  arg_vartype : Option String
  cpp_vartype : Option String
  cpp_varname : Option String
  condition : Option Condition
  conflicts : List String
  requires : List String
  hidden : Bool
  redact : Bool
  default : Option String
  implicit : Option String
  source : Option String
  duplicates_append : Bool
  positional_start : Option Int
  positional_end : Option Int
  validator : Option Validator

/-- `ConfigOption.__init__` (ast.py:301-329). -/
def ConfigOption.init (file_name : String) (line column : Int) : ConfigOption :=
  { name := none
    short_name := none
    deprecated_name := []
    deprecated_short_name := []
    description := none
    section_name := none
    arg_vartype := none
    cpp_vartype := none
    cpp_varname := none
    condition := none
    conflicts := []
    requires := []
    hidden := false
    redact := false
    default := none
    implicit := none
    source := none
    duplicates_append := false
    positional_start := none
    positional_end := none
    validator := none
    toSourceLocation := ⟨file_name, line, column⟩ }

/-- The attributes of `Field` (ast.py:137-187), parameterized by the type of
the `chained_struct_field` back-link so that `Field` can close the recursion. -/
structure FieldData (F : Type) extends common.SourceLocation where
  name : Option String
  description : Option String
  cpp_name : Option String
  optional : Bool
  ignore : Bool
  chained : Bool
  comparison_order : Int
  -- Properties specific to fields which are types (ast.py:159-165).
  cpp_type : Option String
  bson_serialization_type : Option (List String)
  serializer : Option String
  deserializer : Option String
  bindata_subtype : Option String
  default : Option String
  -- Properties specific to fields which are structs (ast.py:167-168).
  struct_type : Option String
  -- Properties specific to fields which are arrays (ast.py:170-172).
  array : Bool
  supports_doc_sequence : Bool
  -- Properties specific to fields which are enums (ast.py:174-175).
  enum_type : Bool
  -- Properties specific to fields inlined from chained_structs (ast.py:177-178).
  chained_struct_field : Option F
  -- Internal fields - not generated by parser (ast.py:180-182).
  serialize_op_msg_request_only : Bool
  constructed : Bool
  -- Validation rules (ast.py:184-185).
  validator : Option Validator

/-- `Field` (ast.py:137-187): an instance of a field in a struct. The
`chained_struct_field` attribute references another `Field`, so the type is
recursive. -/
inductive Field where
  | mk : FieldData Field → Field

/-- The attribute record of a `Field`. -/
def Field.data : Field → FieldData Field
  | .mk d => d

/-- `Field.__init__` (ast.py:148-187). -/
def Field.init (file_name : String) (line column : Int) : Field :=
  .mk
    { name := none
      description := none
      cpp_name := none
      optional := false
      ignore := false
      chained := false
      comparison_order := -1
      cpp_type := none
      bson_serialization_type := none
      serializer := none
      deserializer := none
      bindata_subtype := none
      default := none
      struct_type := none
      array := false
      supports_doc_sequence := false
      enum_type := false
      chained_struct_field := none
      serialize_op_msg_request_only := false
      constructed := false
      validator := none
      toSourceLocation := ⟨file_name, line, column⟩ }

/-- `Struct` (ast.py:90-110): IDL struct information. -/
structure Struct extends common.SourceLocation where
  name : Option String
  cpp_name : Option String
  description : Option String
  strict : Bool
  immutable : Bool
  inline_chained_structs : Bool
  generate_comparison_operators : Bool
  fields : List Field

/-- `Struct.__init__` (ast.py:99-110). -/
def Struct.init (file_name : String) (line column : Int) : Struct :=
  { name := none
    cpp_name := none
    description := none
    strict := true
    immutable := false
    inline_chained_structs := false
    generate_comparison_operators := false
    fields := []
    toSourceLocation := ⟨file_name, line, column⟩ }

/-- `Command` (ast.py:190-202): a `Struct` plus a wire namespace and an
optional dedicated command field. `name_space` embeds the attribute the source
spells `n·amespace` (ast.py:200), a Lean keyword. -/
structure Command extends Struct where
  name_space : Option String
  command_field : Option Field

/-- `Command.__init__` (ast.py:197-202). -/
def Command.init (file_name : String) (line column : Int) : Command :=
  { toStruct := Struct.init file_name line column
    name_space := none
    command_field := none }

/-- `IDLAST` (ast.py:57-70): the in-memory representation of an IDL file. -/
structure IDLAST where
  globals : Option Global
  commands : List Command
  enums : List Enum
  structs : List Struct
  server_parameters : List ServerParameter
  configs : List ConfigOption

/-- `IDLAST.__init__` (ast.py:60-70). -/
def IDLAST.init : IDLAST :=
  { globals := none
    commands := []
    enums := []
    structs := []
    server_parameters := []
    configs := [] }

/-- `IDLBoundSpec` (ast.py:45-54): a bound IDL document or a set of errors. -/
structure IDLBoundSpec where
  spec : Option IDLAST
  errors : Option errors.ParserErrorCollection

/-- `IDLBoundSpec.__init__` (ast.py:48-54). The Python `assert`
`(spec is None and error_collection is not None) or (spec is not None and
error_collection is None)` halts construction when it fails; we embed the
fallible constructor as an `Option`, `none` meaning the assertion fired. -/
def IDLBoundSpec.init (spec : Option IDLAST)
    (error_collection : Option errors.ParserErrorCollection) : Option IDLBoundSpec :=
  if (spec.isNone && error_collection.isSome) || (spec.isSome && error_collection.isNone) then
    some { spec := spec, errors := error_collection }
  else
    none

/-! ### Spec-modelled binder output contract

The binder (`bind(source) -> IDLBoundSpec`, spec section 4.1) is not among the
sources at hand; only the data model it populates is. Following the spec, we
model the binder's *output contract* — the checks a populated entity must pass
for the binder to wrap it in a successful `IDLBoundSpec` — as decidable
acceptance predicates, and quantify the reachable-AST claims over ASTs that
pass them. -/

/-- Modelled from the spec: the per-field output contract of the binder —
invariant 2 ("a Field resolves to exactly one of a scalar `cpp_type`, a nested
struct type, an enum type"), section 8 ("if F is not optional and has no
default, the binder must reject the schema"), and section 4.4
("`serializer`/`deserializer`: set together or not at all"). -/
def fieldAttrsOK (optional : Bool)
    (cpp_type serializer deserializer default struct_type : Option String)
    (enum_type : Bool) : Bool :=
  ((if cpp_type.isSome then 1 else 0) + (if struct_type.isSome then 1 else 0) +
      (if enum_type then 1 else 0) == 1)
    && (optional || default.isSome)
    && (serializer.isSome == deserializer.isSome)

/-- Modelled from the spec: a Field the binder may hand downstream — its own
attributes pass `fieldAttrsOK`, and so do those of every field along its
`chained_struct_field` back-link chain (spec section 4.4). Structural recursion
needs the full constructor pattern of `FieldData`. -/
def Field.bindOK : Field → Bool
  | .mk ⟨loc, name, description, cpp_name, optional, ignore, chained,
         comparison_order, cpp_type, bson_serialization_type, serializer,
         deserializer, bindata_subtype, default, struct_type, array,
         supports_doc_sequence, enum_type, some g,
         serialize_op_msg_request_only, constructed, validator⟩ =>
      fieldAttrsOK optional cpp_type serializer deserializer default
          struct_type enum_type
        && Field.bindOK g
  | .mk ⟨loc, name, description, cpp_name, optional, ignore, chained,
         comparison_order, cpp_type, bson_serialization_type, serializer,
         deserializer, bindata_subtype, default, struct_type, array,
         supports_doc_sequence, enum_type, none,
         serialize_op_msg_request_only, constructed, validator⟩ =>
      fieldAttrsOK optional cpp_type serializer deserializer default
          struct_type enum_type

/-- The `name` attribute of a `Field`. -/
def Field.fieldName (f : Field) : Option String :=
  f.data.name

/-- `true` iff the list has no duplicate entries (the uniqueness check the
binder applies to a struct's field names, spec invariant 4). -/
def namesUnique : List (Option String) → Bool
  | [] => true
  | x :: xs => !(xs.contains x) && namesUnique xs

/-- Modelled from the spec: the binder's output contract for one Struct —
every field passes the field contract, and field names are unique within the
struct (spec invariant 4). -/
def Struct.bindOK (s : Struct) : Bool :=
  s.fields.all Field.bindOK && namesUnique (s.fields.map Field.fieldName)

/-- Modelled from the spec: the binder's output contract for a Command — its
embedded Struct passes, and the designated command field, when present, passes
the field contract. -/
def Command.bindOK (c : Command) : Bool :=
  c.toStruct.bindOK
    && (match c.command_field with
        | some f => f.bindOK
        | none => true)

/-- Modelled from the spec (section 4.6 and the source comments at
ast.py:270,275): a setting with a bound native variable (`cpp_varname`) may
carry `default`/`validator`/`on_update` directly and supplies no explicit
hooks; a setting without one must supply all three hook names
(`from_bson`, `append_bson`, `from_string`) and none of the
variable-only attributes. -/
def ServerParameter.bindOK (p : ServerParameter) : Bool :=
  if p.cpp_varname.isSome then
    p.from_bson.isNone && p.append_bson.isNone && p.from_string.isNone
  else
    p.from_bson.isSome && p.append_bson.isSome && p.from_string.isSome
      && p.default.isNone && p.validator.isNone && p.on_update.isNone

/-- Modelled from the spec: the parts of the binder's whole-AST output
contract that the claims under verification concern — every struct, command
and server parameter in the document passes its contract. -/
def IDLAST.bindOK (a : IDLAST) : Bool :=
  a.structs.all Struct.bindOK && a.commands.all Command.bindOK
    && a.server_parameters.all ServerParameter.bindOK

/-- Modelled from the spec: `bind(source) -> IDLBoundSpec` (spec section 4.1)
— the caller receives either a fully contract-satisfying `IDLAST` or the
accumulated error collection, wrapped through `IDLBoundSpec.init`. -/
def bind (a : IDLAST) (pec : errors.ParserErrorCollection) : Option IDLBoundSpec :=
  if a.bindOK then IDLBoundSpec.init (some a) none
  else IDLBoundSpec.init none (some pec)

/-- The Fields of an `IDLAST` reachable by the generator: members of a
struct's or command's field sequence, a command's designated command field,
and transitively the targets of `chained_struct_field` back-links. -/
inductive FieldReachable (a : IDLAST) : Field → Prop where
  | inStruct {s f} : s ∈ a.structs → f ∈ s.fields → FieldReachable a f
  | inCommand {c f} : c ∈ a.commands → f ∈ c.toStruct.fields → FieldReachable a f
  | commandField {c f} : c ∈ a.commands → c.command_field = some f → FieldReachable a f
  | chainedOf {f g} : FieldReachable a f → f.data.chained_struct_field = some g →
      FieldReachable a g

/-- The Structs of an `IDLAST` reachable by the generator: top-level structs
and the struct part of each command. -/
inductive StructReachable (a : IDLAST) : Struct → Prop where
  | top {s} : s ∈ a.structs → StructReachable a s
  | ofCommand {c} : c ∈ a.commands → StructReachable a c.toStruct

/-- Modelled from the spec: the binder appends each bound Field to its
Struct's `fields` list in declaration order (spec sections 4.2/3; in the
source this is a Python list `append` on the `fields` attribute). -/
def Struct.appendField (s : Struct) (f : Field) : Struct :=
  { s with fields := s.fields ++ [f] }

/-- The spec's Validator non-emptiness predicate (spec invariant 5), stated
from the spec's words for comparison with the source constructor: at least one
of gt/lt/gte/lte/callback is non-absent. -/
def Validator.hasPredicateSpec (v : Validator) : Bool :=
  v.gt.isSome || v.lt.isSome || v.gte.isSome || v.lte.isSome || v.callback.isSome

/-- Whether a ConfigOption carries the explicit from-document /
append-to-document / parse-from-string hook names. The source class
(ast.py:296-329) declares no such attributes — unlike `ServerParameter`
(ast.py:275-278) — so the hook-bound mode is unrepresentable on a
`ConfigOption` value and this predicate is constantly false. -/
def ConfigOption.hasExplicitHooks (co : ConfigOption) : Prop :=
  False

/-! ### Concrete example values -/

/-- An example bound scalar field: name `nm`, a resolved scalar `cpp_type`,
optional. -/
def exScalarField (nm : String) : Field :=
  Field.mk { (Field.init "example.idl" 10 4).data with
    name := some nm, cpp_type := some "std::int32_t", optional := true }

/-- An example bound struct holding two distinctly named scalar fields. -/
def exStruct : Struct :=
  { Struct.init "example.idl" 5 1 with
      name := some "Point"
      fields := [exScalarField "x", exScalarField "y"] }

/-- An example bound server parameter in variable-bound mode. -/
def exParam : ServerParameter :=
  { ServerParameter.init "example.idl" 20 1 with
      name := some "fooParam", cpp_varname := some "gFooParam" }

/-- An example AST passing the modelled binder output contract. -/
def exAST : IDLAST :=
  { IDLAST.init with structs := [exStruct], server_parameters := [exParam] }

/-! ### Helper lemmas -/

theorem Field.bindOK_own {f : Field} (h : f.bindOK = true) :
    fieldAttrsOK f.data.optional f.data.cpp_type f.data.serializer
      f.data.deserializer f.data.default f.data.struct_type f.data.enum_type = true := by
  obtain ⟨d⟩ := f
  obtain ⟨loc, name, description, cpp_name, optional, ignore, chained,
    comparison_order, cpp_type, bst, serializer, deserializer, bds, dflt,
    struct_type, array, sds, enum_type, csf, somro, constructed, validator⟩ := d
  cases csf with
  | none =>
      simpa only [Field.bindOK, Field.data] using h
  | some g =>
      simp only [Field.bindOK, Field.data, Bool.and_eq_true] at h
      exact h.1

theorem Field.bindOK_chained {f g : Field} (h : f.bindOK = true)
    (hc : f.data.chained_struct_field = some g) : g.bindOK = true := by
  obtain ⟨d⟩ := f
  obtain ⟨loc, name, description, cpp_name, optional, ignore, chained,
    comparison_order, cpp_type, bst, serializer, deserializer, bds, dflt,
    struct_type, array, sds, enum_type, csf, somro, constructed, validator⟩ := d
  simp only [Field.data] at hc
  subst hc
  simp only [Field.bindOK, Bool.and_eq_true] at h
  exact h.2

theorem namesUnique_nodup {l : List (Option String)}
    (h : namesUnique l = true) : l.Nodup := by
  induction l with
  | nil => exact List.nodup_nil
  | cons x xs ih =>
      simp only [namesUnique, Bool.and_eq_true, Bool.not_eq_true'] at h
      refine List.nodup_cons.mpr ⟨fun hm => ?_, ih h.2⟩
      have hc : xs.contains x = true := List.elem_eq_true_of_mem hm
      rw [hc] at h
      exact Bool.true_eq_false.mp h.1

theorem bind_success {a : IDLAST} {p : errors.ParserErrorCollection}
    {b : IDLBoundSpec} {w : IDLAST} (hb : bind a p = some b)
    (hs : b.spec = some w) : w = a ∧ a.bindOK = true := by
  by_cases h : a.bindOK = true
  · rw [bind, if_pos h] at hb
    have hred : IDLBoundSpec.init (some a) none =
        some { spec := some a, errors := none } := rfl
    rw [hred, Option.some_inj] at hb
    subst hb
    exact ⟨(Option.some_inj.mp hs).symm, h⟩
  · rw [bind, if_neg h] at hb
    have hred : IDLBoundSpec.init none (some p) =
        some { spec := none, errors := some p } := rfl
    rw [hred, Option.some_inj] at hb
    subst hb
    exact Option.noConfusion hs

theorem fieldAttrsOK_type_exclusive {o : Bool}
    {ct sz dz df st : Option String} {et : Bool}
    (h : fieldAttrsOK o ct sz dz df st et = true) :
    ¬(ct.isSome = true ∧ st.isSome = true) ∧
    ¬(ct.isSome = true ∧ et = true) ∧
    ¬(st.isSome = true ∧ et = true) := by
  simp only [fieldAttrsOK, Bool.and_eq_true, beq_iff_eq] at h
  obtain ⟨⟨hcount, _⟩, _⟩ := h
  cases hct : ct.isSome <;> cases hst : st.isSome <;> cases het : et <;>
    simp_all

theorem fieldAttrsOK_defaulting {o : Bool}
    {ct sz dz df st : Option String} {et : Bool}
    (h : fieldAttrsOK o ct sz dz df st et = true) :
    o = true ∨ df.isSome = true := by
  simp only [fieldAttrsOK, Bool.and_eq_true, Bool.or_eq_true] at h
  exact h.1.2

theorem fieldAttrsOK_hooks {o : Bool}
    {ct sz dz df st : Option String} {et : Bool}
    (h : fieldAttrsOK o ct sz dz df st et = true) :
    sz.isSome = dz.isSome := by
  simp only [fieldAttrsOK, Bool.and_eq_true, beq_iff_eq] at h
  exact h.2

theorem structReachable_bindOK {a : IDLAST} (ha : a.bindOK = true)
    {s : Struct} (hr : StructReachable a s) : s.bindOK = true := by
  simp only [IDLAST.bindOK, Bool.and_eq_true, List.all_eq_true] at ha
  cases hr with
  | top hs => exact ha.1.1 _ hs
  | ofCommand hc =>
      have := ha.1.2 _ hc
      simp only [Command.bindOK, Bool.and_eq_true] at this
      exact this.1

theorem fieldReachable_bindOK {a : IDLAST} (ha : a.bindOK = true)
    {f : Field} (hr : FieldReachable a f) : f.bindOK = true := by
  induction hr with
  | inStruct hs hf =>
      have hstruct := structReachable_bindOK ha (.top hs)
      simp only [Struct.bindOK, Bool.and_eq_true, List.all_eq_true] at hstruct
      exact hstruct.1 _ hf
  | inCommand hc hf =>
      have hstruct := structReachable_bindOK ha (.ofCommand hc)
      simp only [Struct.bindOK, Bool.and_eq_true, List.all_eq_true] at hstruct
      exact hstruct.1 _ hf
  | commandField hc hcf =>
      simp only [IDLAST.bindOK, Bool.and_eq_true, List.all_eq_true] at ha
      have := ha.1.2 _ hc
      simp only [Command.bindOK, Bool.and_eq_true] at this
      rw [hcf] at this
      exact this.2
  | chainedOf hrf hcs ih => exact Field.bindOK_chained ih hcs

theorem Struct.foldl_appendField (s : Struct) (fs : List Field) :
    (fs.foldl Struct.appendField s).fields = s.fields ++ fs := by
  induction fs generalizing s with
  | nil => simp
  | cons f fs ih =>
      simp only [List.foldl_cons, ih, Struct.appendField, List.append_assoc,
        List.singleton_append]

/-! ### Claim theorems -/

/-- C1: Constructing an `IDLBoundSpec` succeeds if and only if exactly one of
{spec, error_collection} is non-absent — with both populated or neither
populated the assert at ast.py:51-52 fires and construction fails — and on
success the constructed value holds exactly the one populated branch
(ast.py:53-54). -/
theorem IDLBoundSpec_exactly_one_branch (s : Option IDLAST)
    (e : Option errors.ParserErrorCollection) :
    ((IDLBoundSpec.init s e).isSome = true ↔
      ((s.isSome = true ∧ e.isSome = false) ∨ (s.isSome = false ∧ e.isSome = true)))
    ∧ ∀ b : IDLBoundSpec, IDLBoundSpec.init s e = some b →
        b.spec = s ∧ b.errors = e := by
  constructor
  · cases s <;> cases e <;> simp [IDLBoundSpec.init]
  · intro b hb
    unfold IDLBoundSpec.init at hb
    split at hb
    · rw [Option.some_inj] at hb
      subst hb
      exact ⟨rfl, rfl⟩
    · exact Option.noConfusion hb

/-- C1 witness: at the concrete input (a default AST, no errors) construction
succeeds and holds exactly the populated branch. -/
theorem IDLBoundSpec_exactly_one_branch_witness :
    IDLBoundSpec.spec { spec := some IDLAST.init, errors := none } = some IDLAST.init ∧
    IDLBoundSpec.errors { spec := some IDLAST.init, errors := none } = none :=
  (IDLBoundSpec_exactly_one_branch (some IDLAST.init) none).2
    { spec := some IDLAST.init, errors := none } rfl

/-- C2 counterexample: `Validator.__init__` (ast.py:123-134) performs no
rejection — constructing a Validator succeeds at any location and the
constructed instance carries none of the five predicates, contradicting the
claim that all-absent construction fails. -/
theorem Validator_init_no_rejection_counterexample :
    Validator.hasPredicateSpec (Validator.init "example.idl" 3 1) = false := rfl

/-- C2 amended: Validator construction never rejects — for every source
location it succeeds and yields the instance with all five of
{gt, lt, gte, lte, callback} absent; the non-emptiness requirement documented
at ast.py:117 is the binder's to establish after construction, not a
construction-time check. -/
theorem Validator_init_all_predicates_absent (n : String) (l c : Int) :
    (Validator.init n l c).gt = none ∧ (Validator.init n l c).lt = none ∧
    (Validator.init n l c).gte = none ∧ (Validator.init n l c).lte = none ∧
    (Validator.init n l c).callback = none :=
  ⟨rfl, rfl, rfl, rfl, rfl⟩

/-- C3: for every Field reachable through a successfully bound AST, at most
one of {cpp_type, struct_type, enum_type} is set — the three type kinds are
mutually exclusive per field (spec invariant 2; binder modelled from the
spec). -/
theorem Field_type_kinds_exclusive (a : IDLAST)
    (p : errors.ParserErrorCollection) (b : IDLBoundSpec) (w : IDLAST)
    (hb : bind a p = some b) (hs : b.spec = some w) (f : Field)
    (hf : FieldReachable w f) :
    ¬(f.data.cpp_type.isSome = true ∧ f.data.struct_type.isSome = true) ∧
    ¬(f.data.cpp_type.isSome = true ∧ f.data.enum_type = true) ∧
    ¬(f.data.struct_type.isSome = true ∧ f.data.enum_type = true) := by
  obtain ⟨hw, hok⟩ := bind_success hb hs
  subst hw
  exact fieldAttrsOK_type_exclusive
    (Field.bindOK_own (fieldReachable_bindOK hok hf))

/-- C3 witness: exercised at the successfully bound `exAST` and its reachable
field `exScalarField "x"`. -/
theorem Field_type_kinds_exclusive_witness :
    ¬((exScalarField "x").data.cpp_type.isSome = true ∧
        (exScalarField "x").data.struct_type.isSome = true) ∧
    ¬((exScalarField "x").data.cpp_type.isSome = true ∧
        (exScalarField "x").data.enum_type = true) ∧
    ¬((exScalarField "x").data.struct_type.isSome = true ∧
        (exScalarField "x").data.enum_type = true) :=
  Field_type_kinds_exclusive exAST ⟨[]⟩ _ exAST rfl rfl (exScalarField "x")
    (FieldReachable.inStruct (List.Mem.head _) (List.Mem.head _))

/-- C4: every Field reachable through a successfully bound AST is optional or
carries a non-absent default (spec section 8: a non-optional, default-less
field makes the binder reject the schema; binder modelled from the spec). -/
theorem Field_optional_or_default (a : IDLAST)
    (p : errors.ParserErrorCollection) (b : IDLBoundSpec) (w : IDLAST)
    (hb : bind a p = some b) (hs : b.spec = some w) (f : Field)
    (hf : FieldReachable w f) :
    f.data.optional = true ∨ f.data.default.isSome = true := by
  obtain ⟨hw, hok⟩ := bind_success hb hs
  subst hw
  exact fieldAttrsOK_defaulting
    (Field.bindOK_own (fieldReachable_bindOK hok hf))

/-- C4 witness: exercised at the successfully bound `exAST` and its reachable
field `exScalarField "y"`. -/
theorem Field_optional_or_default_witness :
    (exScalarField "y").data.optional = true ∨
    (exScalarField "y").data.default.isSome = true :=
  Field_optional_or_default exAST ⟨[]⟩ _ exAST rfl rfl (exScalarField "y")
    (FieldReachable.inStruct (List.Mem.head _) (List.Mem.tail _ (List.Mem.head _)))

/-- C5: the variable-bound and hook-bound modes are mutually exclusive — no
ServerParameter of a successfully bound AST has both `cpp_varname` set and any
of the explicit from_bson/append_bson/from_string hooks populated (binder
modelled from the spec, section 4.6 and the source comments ast.py:270,275);
and a ConfigOption (ast.py:296-329) declares no hook attributes at all, so for
it the combination is unrepresentable. -/
theorem ServerParameter_ConfigOption_mode_exclusive :
    (∀ (a : IDLAST) (p : errors.ParserErrorCollection) (b : IDLBoundSpec)
        (w : IDLAST), bind a p = some b → b.spec = some w →
        ∀ q : ServerParameter, q ∈ w.server_parameters →
          ¬(q.cpp_varname.isSome = true ∧
            (q.from_bson.isSome = true ∨ q.append_bson.isSome = true ∨
              q.from_string.isSome = true)))
    ∧ ∀ co : ConfigOption, ¬ co.hasExplicitHooks := by
  constructor
  · rintro a p b w hb hs q hq ⟨hv, hh⟩
    obtain ⟨hw, hok⟩ := bind_success hb hs
    subst hw
    simp only [IDLAST.bindOK, Bool.and_eq_true, List.all_eq_true] at hok
    have hq' := hok.2 _ hq
    unfold ServerParameter.bindOK at hq'
    rw [if_pos hv] at hq'
    simp only [Bool.and_eq_true, Option.isNone_iff_eq_none] at hq'
    rcases hh with h1 | h1 | h1
    · rw [hq'.1.1] at h1
      exact Bool.noConfusion h1
    · rw [hq'.1.2] at h1
      exact Bool.noConfusion h1
    · rw [hq'.2] at h1
      exact Bool.noConfusion h1
  · intro co hco
    exact hco

/-- C5 witness: exercised at the successfully bound `exAST`'s variable-bound
parameter `exParam` and a concrete ConfigOption. -/
theorem ServerParameter_ConfigOption_mode_exclusive_witness :
    ¬(exParam.cpp_varname.isSome = true ∧
      (exParam.from_bson.isSome = true ∨ exParam.append_bson.isSome = true ∨
        exParam.from_string.isSome = true)) ∧
    ¬(ConfigOption.init "example.idl" 30 1).hasExplicitHooks :=
  ⟨ServerParameter_ConfigOption_mode_exclusive.1 exAST ⟨[]⟩ _ exAST rfl rfl
      exParam (List.Mem.head _),
    ServerParameter_ConfigOption_mode_exclusive.2
      (ConfigOption.init "example.idl" 30 1)⟩

/-- C6: within any Struct reachable through a successfully bound AST the field
names are pairwise distinct (spec invariant 4; binder modelled from the spec),
and building a Struct by appending fields in declaration order and reading
them back returns exactly that sequence. -/
theorem Struct_field_names_unique_and_order_preserved :
    (∀ (a : IDLAST) (p : errors.ParserErrorCollection) (b : IDLBoundSpec)
        (w : IDLAST), bind a p = some b → b.spec = some w →
        ∀ s : Struct, StructReachable w s →
          (s.fields.map Field.fieldName).Nodup)
    ∧ ∀ (n : String) (l c : Int) (fs : List Field),
        (fs.foldl Struct.appendField (Struct.init n l c)).fields = fs := by
  constructor
  · intro a p b w hb hs s hr
    obtain ⟨hw, hok⟩ := bind_success hb hs
    subst hw
    have hsok := structReachable_bindOK hok hr
    simp only [Struct.bindOK, Bool.and_eq_true] at hsok
    exact namesUnique_nodup hsok.2
  · intro n l c fs
    rw [Struct.foldl_appendField]
    rfl

/-- C6 witness: exercised at the successfully bound `exAST`'s struct
`exStruct` and a concrete one-field build. -/
theorem Struct_field_names_unique_and_order_preserved_witness :
    (exStruct.fields.map Field.fieldName).Nodup ∧
    ([exScalarField "x"].foldl Struct.appendField
        (Struct.init "example.idl" 5 1)).fields = [exScalarField "x"] :=
  ⟨Struct_field_names_unique_and_order_preserved.1 exAST ⟨[]⟩ _ exAST rfl rfl
      exStruct (StructReachable.top (List.Mem.head _)),
    Struct_field_names_unique_and_order_preserved.2 "example.idl" 5 1
      [exScalarField "x"]⟩

/-- C7: every entity type of the model except IDLAST and IDLBoundSpec —
Global, Struct, Command, Field, Validator, Enum, EnumValue, Condition,
ServerParameter, ConfigGlobal, ConfigOption — carries a SourceLocation that
reads back exactly the file name, line and column supplied at construction. -/
theorem entities_carry_source_location (n : String) (l c : Int) :
    (Global.init n l c).toSourceLocation = ⟨n, l, c⟩ ∧
    (Struct.init n l c).toSourceLocation = ⟨n, l, c⟩ ∧
    (Command.init n l c).toSourceLocation = ⟨n, l, c⟩ ∧
    (Field.init n l c).data.toSourceLocation = ⟨n, l, c⟩ ∧
    (Validator.init n l c).toSourceLocation = ⟨n, l, c⟩ ∧
    (Enum.init n l c).toSourceLocation = ⟨n, l, c⟩ ∧
    (EnumValue.init n l c).toSourceLocation = ⟨n, l, c⟩ ∧
    (Condition.init n l c).toSourceLocation = ⟨n, l, c⟩ ∧
    (ServerParameter.init n l c).toSourceLocation = ⟨n, l, c⟩ ∧
    (ConfigGlobal.init n l c).toSourceLocation = ⟨n, l, c⟩ ∧
    (ConfigOption.init n l c).toSourceLocation = ⟨n, l, c⟩ :=
  ⟨rfl, rfl, rfl, rfl, rfl, rfl, rfl, rfl, rfl, rfl, rfl⟩

/-- C9: for every Field reachable through a successfully bound AST, the
serializer and deserializer hook names are set together or not at all (spec
section 4.4; binder modelled from the spec). -/
theorem Field_serializer_deserializer_together (a : IDLAST)
    (p : errors.ParserErrorCollection) (b : IDLBoundSpec) (w : IDLAST)
    (hb : bind a p = some b) (hs : b.spec = some w) (f : Field)
    (hf : FieldReachable w f) :
    f.data.serializer.isSome = f.data.deserializer.isSome := by
  obtain ⟨hw, hok⟩ := bind_success hb hs
  subst hw
  exact fieldAttrsOK_hooks
    (Field.bindOK_own (fieldReachable_bindOK hok hf))

/-- C9 witness: exercised at the successfully bound `exAST` and its reachable
field `exScalarField "x"` (both hooks absent). -/
theorem Field_serializer_deserializer_together_witness :
    (exScalarField "x").data.serializer.isSome =
      (exScalarField "x").data.deserializer.isSome :=
  Field_serializer_deserializer_together exAST ⟨[]⟩ _ exAST rfl rfl
    (exScalarField "x")
    (FieldReachable.inStruct (List.Mem.head _) (List.Mem.head _))

/-- C10: a freshly constructed Struct defaults to strict mode enabled, all
other policy flags disabled, and an empty fields sequence (ast.py:99-110). -/
theorem Struct_init_defaults (n : String) (l c : Int) :
    (Struct.init n l c).strict = true ∧ (Struct.init n l c).immutable = false ∧
    (Struct.init n l c).inline_chained_structs = false ∧
    (Struct.init n l c).generate_comparison_operators = false ∧
    (Struct.init n l c).fields = [] :=
  ⟨rfl, rfl, rfl, rfl, rfl⟩

end ast
